import Mathlib

/-!
Verification of the flash-attention dispatch engine of
`axlearn/common/flash_attention/utils.py`.

The dispatcher `jit_attn` (built by `flash_attention_implementation`) is
embedded as a pure function from call parameters to either a dispatch error
or a symbolic description of the kernel invocation it performs.  The bias
algebra (`attention_bias.py` is not part of the sources; only its callers
are) is modelled from the specification's closed union of variants.
The reference attention `mha_reference` is embedded over rationals.
-/

set_option autoImplicit false

/-- Element types of the tensors, as far as dispatch decisions inspect them. -/
inductive DType where
  | float32
  | bfloat16
  | float16
deriving DecidableEq

/-- A 4-d tensor `[batch, seqLen, heads, headDim]` with rational entries.
The data function is total; entries outside the recorded shape are irrelevant
to the dispatch logic, which only inspects shapes and dtypes. -/
structure Tensor where
  batch : ℕ
  seqLen : ℕ
  heads : ℕ
  headDim : ℕ
  dtype : DType
  data : ℕ → ℕ → ℕ → ℕ → ℚ

/-- Segment-id tensor of shape `[batch, len]` carried by a SegmentId bias. -/
structure SegTensor where
  batch : ℕ
  len : ℕ
  ids : ℕ → ℕ → ℤ

/-- A dense additive bias, indexed `[batch, head, target, source]`. -/
abbrev BiasTensor := ℕ → ℕ → ℕ → ℕ → ℚ

/-- Modelled from the spec: a MaskFn bias leaf is an arbitrary boolean
predicate over (target_position, source_position), optionally bundled with a
`target_positions` tensor (one decode offset per batch row) used for
autoregressive decoding. -/
structure MaskLeaf where
  pred : ℕ → ℕ → Bool
  targetPositions : Option (List ℕ)

/-- Modelled from the spec: the closed union of attention-bias variants
(`attention_bias.py` is absent from the sources): Zero, Causal, SegmentId,
MaskFn, Tensor-valued, and Composite (an ordered, semantically summed
collection). -/
inductive Bias where
  | zero
  | causal
  | segmentIds (st : SegTensor)
  | maskFn (m : MaskLeaf)
  | tensor (t : Option BiasTensor)
  | composite (l : List Bias)

/-- Modelled from the spec: the large finite negative sentinel used for
excluded positions ("not floating-point negative infinity, to avoid NaN
propagation"); the exact value is part of the numeric contract of the absent
`attention_bias.py`, chosen here as -10^15. -/
def NEG_INF : ℚ := -(10 ^ 15)

mutual

/-- Modelled from the spec: the flattened leaf list of a bias (Composite
flattens nested composites; Zero contributes nothing). -/
def leaves : Bias → List Bias
  | .zero => []
  | .composite l => leavesList l
  | .causal => [.causal]
  | .segmentIds st => [.segmentIds st]
  | .maskFn m => [.maskFn m]
  | .tensor t => [.tensor t]

/-- Flattened leaves of a list of biases, in order. -/
def leavesList : List Bias → List Bias
  | [] => []
  | b :: rest => leaves b ++ leavesList rest

end

/-- Modelled from the spec: for a decode-style MaskFn with `target_positions`,
the target index `t` of batch row `b` denotes absolute position
`target_positions[b] + t`; without `target_positions` it is `t` itself. -/
def decodeTargetPos : Option (List ℕ) → ℕ → ℕ → ℕ
  | none, _, t => t
  | some l, b, t => l.getD b 0 + t

/-- Modelled from the spec: the dense masking effect of a single leaf
(`value()` of one variant) — `none` exactly for leaves with no effect,
NEG_INF at excluded positions otherwise. -/
def leafDense : Bias → Option BiasTensor
  | .causal => some (fun _ _ t s => if t < s then NEG_INF else 0)
  | .segmentIds st => some (fun b _ t s => if st.ids b t = st.ids b s then 0 else NEG_INF)
  | .maskFn m =>
      some (fun b _ t s => if m.pred (decodeTargetPos m.targetPositions b t) s then 0 else NEG_INF)
  | .tensor t => t
  | _ => none

/-- Pointwise sum of two optional dense biases, `none` acting as zero. -/
def addOptBT : Option BiasTensor → Option BiasTensor → Option BiasTensor
  | none, y => y
  | some x, none => some x
  | some x, some y => some (fun b h t s => x b h t s + y b h t s)

/-- Modelled from the spec: `value()` / `asDenseTensor()` of a bias — the sum
of the leaves' dense effects, `none` if every leaf is empty. -/
def densifyOpt (bias : Bias) : Option BiasTensor :=
  (leaves bias).foldl (fun acc l => addOptBT acc (leafDense l)) none

/-- Whether a leaf is a MaskFn variant. -/
def isMaskLeaf : Bias → Bool
  | .maskFn _ => true
  | _ => false

/-- Whether a leaf is the Causal variant. -/
def isCausalLeaf : Bias → Bool
  | .causal => true
  | _ => false

/-- Whether a leaf is a SegmentId variant. -/
def isSegLeaf : Bias → Bool
  | .segmentIds _ => true
  | _ => false

/-- The MaskFn leaves of a bias, in order. -/
def maskLeaves (b : Bias) : List MaskLeaf :=
  (leaves b).filterMap fun l =>
    match l with
    | .maskFn m => some m
    | _ => none

/-- Projection of a leaf onto its SegmentId payload. -/
def segProj : Bias → Option SegTensor
  | .segmentIds st => some st
  | _ => none

/-- The SegmentId leaves of a bias, in order. -/
def segLeaves (b : Bias) : List SegTensor :=
  (leaves b).filterMap segProj

/-- Whether a Causal leaf is present (`causal.value() is not None` after the
split, since the split returns a Zero sentinel when no Causal leaf exists). -/
def causalPresent (b : Bias) : Bool :=
  (leaves b).any isCausalLeaf

/-- Catch-all remainder of `split(bias, MaskFnAttentionBias)`: every leaf that
is not a MaskFn, kept as a Composite. -/
def maskRest (b : Bias) : Bias :=
  .composite ((leaves b).filter (fun l => !isMaskLeaf l))

/-- Catch-all remainder of `split(bias, CausalAttentionBias,
SegmentIdAttentionBias)`: every leaf that is neither Causal nor SegmentId. -/
def causalSegRest (b : Bias) : Bias :=
  .composite ((leaves b).filter (fun l => !isCausalLeaf l && !isSegLeaf l))

/-- Catch-all remainder of `split(bias, MaskFnAttentionBias,
SegmentIdAttentionBias)` on the TPU path. -/
def maskSegRest (b : Bias) : Bias :=
  .composite ((leaves b).filter (fun l => !isMaskLeaf l && !isSegLeaf l))

/-- The SegmentId group of leaves as a bias (used by the cudnn-branch
`explicit_bias += segment_ids` re-merge). -/
def segGroup (b : Bias) : Bias :=
  .composite ((leaves b).filter isSegLeaf)

/-- Modelled from the spec: combination of two MaskFn leaves by
`from_sequence` — predicates are conjoined; the first available
`target_positions` is kept. -/
def combineMask (a b : MaskLeaf) : MaskLeaf :=
  ⟨fun t s => a.pred t s && b.pred t s,
   match a.targetPositions with
   | some tp => some tp
   | none => b.targetPositions⟩

/-- Modelled from the spec: the MaskFn group returned by the split — `none`
when no MaskFn leaf exists; a single leaf is returned without modification. -/
def retrievedMask : List MaskLeaf → Option MaskLeaf
  | [] => none
  | m :: rest => some (rest.foldl combineMask m)

/-- `_repeat_kv_heads`: repeats the key/value head dimension to match the
query.  The repetition factor is the floor quotient
`num_q_heads // kv.heads`; factor 1 returns the input itself. -/
def repeat_kv_heads (numQHeads : ℕ) (kv : Tensor) : Tensor :=
  let numHeadRepeats := numQHeads / kv.heads
  if numHeadRepeats = 1 then kv
  else
    Tensor.mk kv.batch kv.seqLen (kv.heads * numHeadRepeats) kv.headDim kv.dtype
      (fun b s h d => kv.data b s (h / numHeadRepeats) d)

/-- Slicing every r-th head along the head axis (the inverse direction of the
spec's head-repetition round-trip property). -/
def sliceEveryRth (r : ℕ) (t : Tensor) : Tensor :=
  Tensor.mk t.batch t.seqLen (t.heads / r) t.headDim t.dtype
    (fun b s h d => t.data b s (h * r) d)

/-- The errors raised by the dispatcher, mirroring the exception sites of
`jit_attn`:  the final `NotImplementedError` for unknown backends, the
`NotImplementedError` for GPU query/key length mismatch, the `RuntimeError`
for an unretrievable decode mask, and the two `ValueError`s of
`get_segment_ids`. -/
inductive DispatchError where
  | unsupportedBackend
  | qkLenMismatch
  | noMaskOrTargetPositions
  | segQKLenMismatch
  | segBatchMismatch
deriving DecidableEq

/-- Whether an error is one of the `ValueError`s (as opposed to the
`NotImplementedError` / `RuntimeError` sites). -/
def isValueError : DispatchError → Bool
  | .segQKLenMismatch => true
  | .segBatchMismatch => true
  | _ => false

/-- Symbolic description of the kernel invocation a dispatch performs; the
kernels themselves are external collaborators. -/
inductive KernelCall where
  | flashDecoding (query key value : Tensor) (bias : Option BiasTensor)
      (maskPred : ℕ → ℕ → Bool) (kvSeqLen : List ℕ) (softmaxScale : ℚ)
  | gpuTriton (query key value : Tensor) (bias : Option BiasTensor)
      (segmentIds : Option SegTensor) (softmaxScale : ℚ) (causal : Bool)
  | cudnn (query key value : Tensor) (bias : Option BiasTensor)
      (softmaxScale : ℚ) (causal : Bool)
  | tpuFlash (query key value : Tensor) (bias : Option BiasTensor)
      (segmentIds : Option SegTensor) (mask : Option MaskLeaf)
      (softmaxScale : ℚ) (blockSize : ℕ)
  | mhaRef (query key value : Tensor) (bias : Option BiasTensor)
      (segmentIds : Option SegTensor) (causal : Bool) (softmaxScale : ℚ)

/-- Whether a dispatch outcome is an invocation of the slower general GPU
(Triton) kernel. -/
def isTriton : Except DispatchError KernelCall → Bool
  | .ok (.gpuTriton _ _ _ _ _ _ _) => true
  | _ => false

/-- `get_segment_ids` of `jit_attn`: returns `none` when no segment-id bias is
present; otherwise raises `ValueError` when query/key lengths differ or the
segment batch dimension differs from the query batch, and returns the
segment-id tensor unchanged otherwise. -/
def getSegmentIds (qBatch qLen kLen : ℕ) (segs : List SegTensor) :
    Except DispatchError (Option SegTensor) :=
  match segs with
  | [] => .ok none
  | st :: _ =>
    if qLen ≠ kLen then .error .segQKLenMismatch
    else if st.batch ≠ qBatch then .error .segBatchMismatch
    else .ok (some st)

/-- The GPU decode sub-path (`query.shape[1] == 1` on backend "gpu"): split
out the MaskFn leaf, fail with `RuntimeError` if there is none or it lacks
`target_positions`; otherwise invoke flash decoding with
`kv_seq_len = target_positions + 1` and the key/value tensors NOT
head-repeated. -/
def gpuDecode (softmaxScale : ℚ) (query key value : Tensor) (bias : Bias) :
    Except DispatchError KernelCall :=
  match retrievedMask (maskLeaves bias) with
  | none => .error .noMaskOrTargetPositions
  | some m =>
    match m.targetPositions with
    | none => .error .noMaskOrTargetPositions
    | some tps =>
      .ok (.flashDecoding query key value (densifyOpt (maskRest bias)) m.pred
        (tps.map (fun p => p + 1)) softmaxScale)

/-- The triton-fallback condition of the GPU general case (lines 216-220):
segment ids present, or a non-empty remaining explicit bias, or any of
query/key/value in float32. -/
def gpuSlowCond (query key value : Tensor) (bias : Bias) : Bool :=
  !(segLeaves bias).isEmpty || (densifyOpt (causalSegRest bias)).isSome ||
    (query.dtype = .float32 || key.dtype = .float32 || value.dtype = .float32)

/-- The `backend == "gpu"` branch of `jit_attn`. -/
def gpuBranch (softmaxScale : ℚ) (query key value : Tensor) (bias : Bias) :
    Except DispatchError KernelCall :=
  if query.seqLen = 1 then gpuDecode softmaxScale query key value bias
  else if query.seqLen ≠ key.seqLen then .error .qkLenMismatch
  else
    let key2 := repeat_kv_heads query.heads key
    let value2 := repeat_kv_heads query.heads value
    if gpuSlowCond query key value bias then
      match getSegmentIds query.batch query.seqLen key.seqLen (segLeaves bias) with
      | .error e => .error e
      | .ok sids =>
        .ok (.gpuTriton query key2 value2 (densifyOpt (causalSegRest bias)) sids softmaxScale
          (causalPresent bias))
    else
      .ok (.cudnn query key2 value2
        (addOptBT (densifyOpt (causalSegRest bias)) (densifyOpt (segGroup bias)))
        softmaxScale (causalPresent bias))

/-- The `backend == "tpu"` branch of `jit_attn`. -/
def tpuBranch (softmaxScale : ℚ) (blockSize : ℕ) (query key value : Tensor) (bias : Bias) :
    Except DispatchError KernelCall :=
  let key2 := repeat_kv_heads query.heads key
  let value2 := repeat_kv_heads query.heads value
  match getSegmentIds query.batch query.seqLen key.seqLen (segLeaves bias) with
  | .error e => .error e
  | .ok sids =>
    .ok (.tpuFlash query key2 value2 (densifyOpt (maskSegRest bias)) sids
      (retrievedMask (maskLeaves bias)) softmaxScale blockSize)

/-- The `backend in ("cpu", "xla")` branch of `jit_attn`: the generic
fallback, invoking the plain `mha_reference` implementation. -/
def xlaBranch (softmaxScale : ℚ) (query key value : Tensor) (bias : Bias) :
    Except DispatchError KernelCall :=
  let key2 := repeat_kv_heads query.heads key
  let value2 := repeat_kv_heads query.heads value
  match getSegmentIds query.batch query.seqLen key.seqLen (segLeaves bias) with
  | .error e => .error e
  | .ok sids =>
    .ok (.mhaRef query key2 value2 (densifyOpt (causalSegRest bias)) sids
      (causalPresent bias) softmaxScale)

/-- The backend-rewriting preamble of `jit_attn` (lines 134-142): the
divisibility fallback and the single-token non-GPU fallback, both skipped for
GPU single-token decoding. -/
def resolvedBackend (blockSize : ℕ) (backend : String) (targetLen : ℕ) : String :=
  let isGpuDecoding := targetLen = 1 ∧ backend = "gpu"
  let b1 := if ¬ isGpuDecoding ∧ targetLen % blockSize ≠ 0 then "xla" else backend
  if ¬ isGpuDecoding ∧ targetLen = 1 then "xla" else b1

/-- The bias-rewriting preamble of `jit_attn` (line 143): for a non-GPU
single-token call the bias is collapsed into one dense tensor bias
`TensorAttentionBias(bias.value())`. -/
def resolvedBias (backend : String) (targetLen : ℕ) (bias : Bias) : Bias :=
  if ¬ (targetLen = 1 ∧ backend = "gpu") ∧ targetLen = 1 then .tensor (densifyOpt bias)
  else bias

/-- Branch dispatch of `jit_attn` on the (rewritten) backend string; any other
backend raises `NotImplementedError` ("unsupported backend"). -/
def dispatchBranch (softmaxScale : ℚ) (blockSize : ℕ) (backend : String)
    (query key value : Tensor) (bias : Bias) : Except DispatchError KernelCall :=
  if backend = "gpu" then gpuBranch softmaxScale query key value bias
  else if backend = "tpu" then tpuBranch softmaxScale blockSize query key value bias
  else if backend = "cpu" ∨ backend = "xla" then xlaBranch softmaxScale query key value bias
  else .error .unsupportedBackend

/-- `jit_attn`: resolve the backend and bias per the fallback preamble, wrap
the bias in a one-element Composite (line 145), and dispatch per backend. -/
def jit_attn (softmaxScale : ℚ) (blockSize : ℕ) (backend : String)
    (query key value : Tensor) (bias : Bias) : Except DispatchError KernelCall :=
  dispatchBranch softmaxScale blockSize (resolvedBackend blockSize backend query.seqLen)
    query key value (.composite [resolvedBias backend query.seqLen bias])

/-- The raw attention logits of `mha_reference`:
`logits[b,h,t,s] = sum_d (softmax_scale * q[b,t,h,d]) * k[b,s,h,d]`
(the scale is applied to the query before the contraction). -/
def qkLogits (dim : ℕ) (softmaxScale : ℚ) (q k : ℕ → ℕ → ℕ → ℕ → ℚ)
    (b h t s : ℕ) : ℚ :=
  ∑ d ∈ Finset.range dim, (softmaxScale * q b t h d) * k b s h d

/-- The logits of `mha_reference` after the two masking stages: first the
segment-id mask (`jnp.where(ne, NEG_INF, logits)`), then the causal mask
(`jnp.where(row_ids < col_ids, NEG_INF, logits)`). -/
def mhaLogits (dim : ℕ) (softmaxScale : ℚ) (q k : ℕ → ℕ → ℕ → ℕ → ℚ)
    (seg : Option (ℕ → ℕ → ℤ)) (causal : Bool) (b h t s : ℕ) : ℚ :=
  let l0 := qkLogits dim softmaxScale q k
  let l1 : ℕ → ℕ → ℕ → ℕ → ℚ :=
    match seg with
    | none => l0
    | some sg => fun b h t s => if sg b t ≠ sg b s then NEG_INF else l0 b h t s
  let l2 : ℕ → ℕ → ℕ → ℕ → ℚ :=
    if causal then fun b h t s => if t < s then NEG_INF else l1 b h t s else l1
  l2 b h t s

/-- Whether the segment-id stage excludes the pair (t, s) of batch b. -/
def segDiffers (seg : Option (ℕ → ℕ → ℤ)) (b t s : ℕ) : Bool :=
  match seg with
  | none => false
  | some sg => decide (sg b t ≠ sg b s)

theorem mhaLogits_characterization (dim : ℕ) (softmaxScale : ℚ)
    (q k : ℕ → ℕ → ℕ → ℕ → ℚ) (seg : Option (ℕ → ℕ → ℤ)) (causal : Bool)
    (b h t s : ℕ) :
    mhaLogits dim softmaxScale q k seg causal b h t s =
      if segDiffers seg b t s || (causal && decide (t < s)) then NEG_INF
      else qkLogits dim softmaxScale q k b h t s := by
  unfold mhaLogits segDiffers
  cases seg with
  | none =>
    cases causal with
    | false => simp
    | true =>
      by_cases hts : t < s <;> simp [hts]
  | some sg =>
    cases causal with
    | false =>
      by_cases hsg : sg b t ≠ sg b s <;> simp [hsg]
    | true =>
      by_cases hts : t < s <;> by_cases hsg : sg b t ≠ sg b s <;> simp [hts, hsg]

/-- Modelled from the spec: the causal mask predicate — source position s is
visible from target position t iff s is not strictly ahead of t. -/
def causalMaskPred : ℕ → ℕ → Bool :=
  fun t s => decide (s ≤ t)

/-- Modelled from the spec: visibility inside the decode kernel — a source
position s is visible iff it lies inside the derived effective key/value
length and the mask predicate admits it at the decode offset t. -/
def decodeVisible (kvLen : ℕ) (pred : ℕ → ℕ → Bool) (t s : ℕ) : Bool :=
  decide (s < kvLen) && pred t s

theorem resolvedBackend_generic (bs : ℕ) (backend : String) (n : ℕ)
    (h1 : n ≠ 1) (h2 : n % bs = 0) : resolvedBackend bs backend n = backend := by
  unfold resolvedBackend
  simp [h1, h2]

theorem resolvedBackend_notdiv (bs : ℕ) (backend : String) (n : ℕ)
    (h1 : ¬ (n = 1 ∧ backend = "gpu")) (h2 : n % bs ≠ 0) :
    resolvedBackend bs backend n = "xla" := by
  unfold resolvedBackend
  by_cases hn : n = 1
  · have hbg : backend ≠ "gpu" := fun hg => h1 ⟨hn, hg⟩
    simp [hn, hbg]
  · simp [hn, h1, h2]

theorem resolvedBackend_one (bs : ℕ) (backend : String)
    (hb : backend ≠ "gpu") : resolvedBackend bs backend 1 = "xla" := by
  unfold resolvedBackend
  simp [hb]

theorem resolvedBackend_gpu (bs : ℕ) (n : ℕ) (h2 : n % bs = 0) :
    resolvedBackend bs "gpu" n = "gpu" := by
  unfold resolvedBackend
  by_cases hn : n = 1
  · simp [hn]
  · simp [hn, h2]

theorem resolvedBias_nonone (backend : String) (n : ℕ) (bias : Bias)
    (h1 : n ≠ 1) : resolvedBias backend n bias = bias := by
  unfold resolvedBias
  simp [h1]

theorem resolvedBias_gpu (n : ℕ) (bias : Bias) :
    resolvedBias "gpu" n bias = bias := by
  unfold resolvedBias
  by_cases hn : n = 1
  · simp [hn]
  · simp [hn]

theorem resolvedBias_one (backend : String) (bias : Bias) (hb : backend ≠ "gpu") :
    resolvedBias backend 1 bias = .tensor (densifyOpt bias) := by
  unfold resolvedBias
  simp [hb]

theorem dispatchBranch_gpu (scale : ℚ) (bs : ℕ) (q k v : Tensor) (b : Bias) :
    dispatchBranch scale bs "gpu" q k v b = gpuBranch scale q k v b := rfl

theorem dispatchBranch_tpu (scale : ℚ) (bs : ℕ) (q k v : Tensor) (b : Bias) :
    dispatchBranch scale bs "tpu" q k v b = tpuBranch scale bs q k v b := rfl

theorem dispatchBranch_cpu (scale : ℚ) (bs : ℕ) (q k v : Tensor) (b : Bias) :
    dispatchBranch scale bs "cpu" q k v b = xlaBranch scale q k v b := rfl

theorem dispatchBranch_xla (scale : ℚ) (bs : ℕ) (q k v : Tensor) (b : Bias) :
    dispatchBranch scale bs "xla" q k v b = xlaBranch scale q k v b := rfl

theorem dispatchBranch_other (scale : ℚ) (bs : ℕ) (backend : String) (q k v : Tensor) (b : Bias)
    (h1 : backend ≠ "gpu") (h2 : backend ≠ "tpu") (h3 : backend ≠ "cpu") (h4 : backend ≠ "xla") :
    dispatchBranch scale bs backend q k v b = .error .unsupportedBackend := by
  unfold dispatchBranch
  simp [h1, h2, h3, h4]

theorem repeat_kv_heads_def (numQHeads : ℕ) (kv : Tensor) :
    repeat_kv_heads numQHeads kv =
      if numQHeads / kv.heads = 1 then kv
      else Tensor.mk kv.batch kv.seqLen (kv.heads * (numQHeads / kv.heads)) kv.headDim kv.dtype
        (fun b s h d => kv.data b s (h / (numQHeads / kv.heads)) d) := rfl

/-- C7: a logit of `mha_reference` at (b, h, t, s) is set to the negative
sentinel exactly when segment ids are supplied and differ at t and s, or the
causal flag holds and t < s; otherwise it is the raw scaled query-key logit.
In the causal 4x4 case, (0,0) and (3,3) are visible while (0,1) and (1,3) are
excluded. -/
theorem c7_reference_masking (dim : ℕ) (scale : ℚ) (q k : ℕ → ℕ → ℕ → ℕ → ℚ)
    (seg : Option (ℕ → ℕ → ℤ)) (causal : Bool) (b h t s : ℕ) :
    (mhaLogits dim scale q k seg causal b h t s =
      if segDiffers seg b t s || (causal && decide (t < s)) then NEG_INF
      else qkLogits dim scale q k b h t s)
    ∧ mhaLogits dim scale q k none true b h 0 0 = qkLogits dim scale q k b h 0 0
    ∧ mhaLogits dim scale q k none true b h 0 1 = NEG_INF
    ∧ mhaLogits dim scale q k none true b h 3 3 = qkLogits dim scale q k b h 3 3
    ∧ mhaLogits dim scale q k none true b h 1 3 = NEG_INF := by
  refine ⟨mhaLogits_characterization dim scale q k seg causal b h t s, ?_, ?_, ?_, ?_⟩
  all_goals rw [mhaLogits_characterization]
  all_goals simp [segDiffers]

/-- C8: the reference attention marks excluded positions with the finite
rational sentinel NEG_INF = -10^15, and a row all of whose logits equal the
sentinel still produces a well-defined softmax: the denominator is strictly
positive and the distribution is exactly uniform (each entry 1/n). -/
theorem c8_neg_inf_defined_softmax :
    NEG_INF = -(10 ^ 15 : ℚ)
    ∧ (∀ (dim : ℕ) (scale : ℚ) (q k : ℕ → ℕ → ℕ → ℕ → ℚ) (seg : Option (ℕ → ℕ → ℤ))
        (causal : Bool) (b h t s : ℕ),
        (segDiffers seg b t s || (causal && decide (t < s))) = true →
        mhaLogits dim scale q k seg causal b h t s = NEG_INF)
    ∧ (∀ (n : ℕ) (row : ℕ → ℚ), 0 < n → (∀ s, s < n → row s = NEG_INF) →
        0 < ∑ s ∈ Finset.range n, Real.exp ((row s : ℝ))
        ∧ ∀ j, j < n →
          Real.exp ((row j : ℝ)) / ∑ s ∈ Finset.range n, Real.exp ((row s : ℝ)) = 1 / n) := by
  refine ⟨rfl, ?_, ?_⟩
  · intro dim scale q k seg causal b h t s hcond
    rw [mhaLogits_characterization, if_pos hcond]
  · intro n row hn hrow
    have hsum : (∑ s ∈ Finset.range n, Real.exp ((row s : ℝ)))
        = (n : ℝ) * Real.exp (((NEG_INF : ℚ) : ℝ)) := by
      have hcg : ∀ s ∈ Finset.range n,
          Real.exp ((row s : ℝ)) = Real.exp (((NEG_INF : ℚ) : ℝ)) := by
        intro s hs
        rw [hrow s (Finset.mem_range.mp hs)]
      rw [Finset.sum_congr rfl hcg, Finset.sum_const, Finset.card_range, nsmul_eq_mul]
    have hpos : (0 : ℝ) < (n : ℝ) * Real.exp (((NEG_INF : ℚ) : ℝ)) :=
      mul_pos (by exact_mod_cast hn) (Real.exp_pos _)
    refine ⟨by rw [hsum]; exact hpos, ?_⟩
    intro j hj
    rw [hsum, hrow j hj]
    have hen : Real.exp (((NEG_INF : ℚ) : ℝ)) ≠ 0 := (Real.exp_pos _).ne'
    have hnn : (n : ℝ) ≠ 0 := by exact_mod_cast hn.ne'
    field_simp
    ring

/-- Witness for C8 at n = 2 and the all-sentinel row. -/
theorem c8_neg_inf_defined_softmax_witness :
    0 < ∑ s ∈ Finset.range 2, Real.exp (((fun _ => NEG_INF) s : ℝ))
    ∧ Real.exp (((fun _ => NEG_INF) 0 : ℝ))
        / ∑ s ∈ Finset.range 2, Real.exp (((fun _ => NEG_INF) s : ℝ)) = 1 / 2 := by
  have h := c8_neg_inf_defined_softmax.2.2 2 (fun _ => NEG_INF) (by decide)
    (fun s _ => rfl)
  exact ⟨h.1, by simpa using h.2 0 (by decide)⟩

/-- C9: repeating kv heads by the factor r = numQ / kv.heads and then slicing
every r-th head recovers the original tensor exactly, and repetition factor 1
returns the input unchanged. -/
theorem c9_head_repetition_roundtrip (kv : Tensor) (r numQ : ℕ)
    (hr0 : 0 < r) (hh : 0 < kv.heads) (hmul : kv.heads * r = numQ) :
    sliceEveryRth r (repeat_kv_heads numQ kv) = kv ∧
    repeat_kv_heads kv.heads kv = kv := by
  have hq : numQ / kv.heads = r := by
    subst hmul
    exact Nat.mul_div_cancel_left r hh
  have hself : kv.heads / kv.heads = 1 := Nat.div_self hh
  constructor
  · by_cases hr1 : r = 1
    · subst hr1
      rw [repeat_kv_heads_def, hq, if_pos rfl]
      obtain ⟨B, S, H, D, dt, f⟩ := kv
      unfold sliceEveryRth
      simp [Tensor.mk.injEq, Nat.div_one]
    · rw [repeat_kv_heads_def, hq, if_neg hr1]
      obtain ⟨B, S, H, D, dt, f⟩ := kv
      unfold sliceEveryRth
      have h1 : H * r / r = H := Nat.mul_div_cancel H hr0
      have h2 : (fun b s h d => f b s (h * r / r) d) = f := by
        funext b s h d
        rw [Nat.mul_div_cancel h hr0]
      simp only at h1 h2 ⊢
      rw [h1, h2]
  · rw [repeat_kv_heads_def, hself, if_pos rfl]

/-- A concrete 2-head key/value tensor used by the C9 witness. -/
def sampleKV : Tensor :=
  Tensor.mk 1 2 2 1 DType.bfloat16 (fun b s h d => (b : ℚ) + 2 * s + 3 * h + d)

/-- Witness for C9 at r = 2 on a concrete 2-head tensor. -/
theorem c9_head_repetition_roundtrip_witness :
    (0 < 2 ∧ 0 < sampleKV.heads ∧ sampleKV.heads * 2 = 4)
    ∧ sliceEveryRth 2 (repeat_kv_heads 4 sampleKV) = sampleKV
    ∧ repeat_kv_heads sampleKV.heads sampleKV = sampleKV :=
  ⟨⟨by decide, by decide, by decide⟩,
   (c9_head_repetition_roundtrip sampleKV 2 4 (by decide) (by decide) (by decide)).1,
   (c9_head_repetition_roundtrip sampleKV 2 4 (by decide) (by decide) (by decide)).2⟩

/-- A concrete query tensor with 3 heads (target length 2, batch 1). -/
def qT3 : Tensor := Tensor.mk 1 2 3 1 DType.bfloat16 (fun _ _ _ _ => 1)

/-- A concrete key/value tensor with 2 heads (source length 2, batch 1). -/
def kvT2 : Tensor := Tensor.mk 1 2 2 1 DType.bfloat16 (fun _ _ _ _ => 1)

/-- Counterexample to C5: a CPU-path call with 3 query heads and 2 kv heads
(3 is not a multiple of 2) raises no error at all — the dispatcher returns the
reference-attention invocation, with the kv tensor passed through with its
2 heads unchanged. -/
theorem c5_counterexample :
    jit_attn 1 2 "cpu" qT3 kvT2 kvT2 Bias.zero
      = .ok (.mhaRef qT3 kvT2 kvT2 none none false 1)
    ∧ (repeat_kv_heads qT3.heads kvT2).heads = 2
    ∧ qT3.heads = 3 :=
  ⟨rfl, rfl, rfl⟩

/-- C5 (amended): when the query head count is not an exact multiple of the
kv head count, no error is raised; the repetition factor is taken by floor
division and the resulting kv head count fails to match the query's, yet the
call is dispatched to the kernel anyway. -/
theorem c5_no_divisibility_error (scale : ℚ) (bs : ℕ) (q k v : Tensor)
    (h1 : q.seqLen ≠ 1) (h2 : q.seqLen % bs = 0)
    (hnd : ¬ k.heads ∣ q.heads) :
    jit_attn scale bs "cpu" q k v Bias.zero
      = .ok (.mhaRef q (repeat_kv_heads q.heads k) (repeat_kv_heads q.heads v)
          none none false scale)
    ∧ (repeat_kv_heads q.heads k).heads ≠ q.heads := by
  constructor
  · unfold jit_attn
    rw [resolvedBackend_generic bs "cpu" q.seqLen h1 h2,
        resolvedBias_nonone "cpu" q.seqLen Bias.zero h1,
        dispatchBranch_cpu]
    rfl
  · rw [repeat_kv_heads_def]
    by_cases hr1 : q.heads / k.heads = 1
    · rw [if_pos hr1]
      intro he
      exact hnd ⟨1, by rw [Nat.mul_one, he]⟩
    · rw [if_neg hr1]
      show k.heads * (q.heads / k.heads) ≠ q.heads
      intro he
      exact hnd ⟨q.heads / k.heads, he.symm⟩

/-- Witness for the amended C5 at the concrete 3-head/2-head call. -/
theorem c5_no_divisibility_error_witness :
    (qT3.seqLen ≠ 1 ∧ qT3.seqLen % 2 = 0 ∧ ¬ kvT2.heads ∣ qT3.heads)
    ∧ jit_attn 1 2 "cpu" qT3 kvT2 kvT2 Bias.zero
        = .ok (.mhaRef qT3 (repeat_kv_heads qT3.heads kvT2) (repeat_kv_heads qT3.heads kvT2)
            none none false 1)
    ∧ (repeat_kv_heads qT3.heads kvT2).heads ≠ qT3.heads :=
  ⟨⟨by decide, by decide, by decide⟩,
   (c5_no_divisibility_error 1 2 qT3 kvT2 kvT2 (by decide) (by decide) (by decide)).1,
   (c5_no_divisibility_error 1 2 qT3 kvT2 kvT2 (by decide) (by decide) (by decide)).2⟩

/-- C1: (a) whenever the call is not a GPU single-token decode and the target
length is not a multiple of the block size, the dispatcher resolves the
backend to the generic fallback and routes the call to the reference
attention branch, regardless of the requested backend; (b) with
backend "gpu", target length a multiple of the block size, a plain causal
bias, and equal query/key lengths, the backend stays "gpu" and the call is
handled by the GPU branch — no downgrade to the generic fallback. -/
theorem c1_divisibility_fallback (scale : ℚ) (bs : ℕ) (backend : String)
    (q k v : Tensor) (bias : Bias) :
    (¬ (q.seqLen = 1 ∧ backend = "gpu") → q.seqLen % bs ≠ 0 →
      resolvedBackend bs backend q.seqLen = "xla"
      ∧ jit_attn scale bs backend q k v bias
          = xlaBranch scale q k v (.composite [resolvedBias backend q.seqLen bias]))
    ∧ (backend = "gpu" → q.seqLen % bs = 0 → bias = .causal → q.seqLen = k.seqLen →
      resolvedBackend bs backend q.seqLen = "gpu"
      ∧ jit_attn scale bs backend q k v bias
          = gpuBranch scale q k v (.composite [bias])) := by
  constructor
  · intro h1 h2
    have hres := resolvedBackend_notdiv bs backend q.seqLen h1 h2
    refine ⟨hres, ?_⟩
    unfold jit_attn
    rw [hres, dispatchBranch_xla]
  · intro hb h2 _hbias _hqk
    subst hb
    have hres := resolvedBackend_gpu bs q.seqLen h2
    refine ⟨hres, ?_⟩
    unfold jit_attn
    rw [hres, dispatchBranch_gpu, resolvedBias_gpu]

/-- Witness for C1: part (a) at a "tpu" call with target length 2 and block
size 128; part (b) at a "gpu" call with target length 2, block size 2, causal
bias and equal lengths. -/
theorem c1_divisibility_fallback_witness :
    (resolvedBackend 128 "tpu" qT3.seqLen = "xla"
      ∧ jit_attn 1 128 "tpu" qT3 kvT2 kvT2 Bias.zero
          = xlaBranch 1 qT3 kvT2 kvT2 (.composite [resolvedBias "tpu" qT3.seqLen Bias.zero]))
    ∧ (resolvedBackend 2 "gpu" qT3.seqLen = "gpu"
      ∧ jit_attn 1 2 "gpu" qT3 kvT2 kvT2 Bias.causal
          = gpuBranch 1 qT3 kvT2 kvT2 (.composite [Bias.causal])) :=
  ⟨(c1_divisibility_fallback 1 128 "tpu" qT3 kvT2 kvT2 Bias.zero).1 (by decide) (by decide),
   (c1_divisibility_fallback 1 2 "gpu" qT3 kvT2 kvT2 Bias.causal).2 rfl (by decide) rfl
     (by decide)⟩

/-- C2: every GPU call with target length 1 takes the decode path: it fails
with the RuntimeError exactly when no MaskFn component is retrievable or the
retrieved one lacks target_positions, and otherwise invokes the decode kernel
with kv_seq_len = target_positions + 1 and the key/value tensors passed
through without head repetition.  With target_positions = [5] and the causal
predicate, source positions 0..5 are visible (length 6) and position 6 is
excluded. -/
theorem c2_gpu_decode (scale : ℚ) (bs : ℕ) (q k v : Tensor) (bias : Bias)
    (hq : q.seqLen = 1) :
    (jit_attn scale bs "gpu" q k v bias
      = match retrievedMask (maskLeaves (Bias.composite [bias])) with
        | none => Except.error DispatchError.noMaskOrTargetPositions
        | some m =>
          match m.targetPositions with
          | none => Except.error DispatchError.noMaskOrTargetPositions
          | some tps =>
            Except.ok (KernelCall.flashDecoding q k v
              (densifyOpt (maskRest (Bias.composite [bias]))) m.pred
              (tps.map (fun p => p + 1)) scale))
    ∧ (∀ s, decodeVisible 6 causalMaskPred 5 s = decide (s ≤ 5)) := by
  constructor
  · unfold jit_attn
    rw [hq]
    have hres : resolvedBackend bs "gpu" 1 = "gpu" := rfl
    rw [hres, resolvedBias_gpu, dispatchBranch_gpu]
    unfold gpuBranch
    rw [if_pos hq]
    rfl
  · intro s
    unfold decodeVisible causalMaskPred
    by_cases h : s ≤ 5
    · have h6 : s < 6 := by omega
      simp [h, h6]
    · have h6 : ¬ s < 6 := by omega
      simp [h, h6]

/-- A concrete single-token (decode) query tensor: target length 1, 4 heads. -/
def qDec : Tensor := Tensor.mk 1 1 4 1 DType.bfloat16 (fun _ _ _ _ => 1)

/-- A concrete key/value cache tensor: source length 8, 2 heads. -/
def kvDec : Tensor := Tensor.mk 1 8 2 1 DType.bfloat16 (fun _ _ _ _ => 1)

/-- Witness for C2: the decode scenario with target_positions = [5] invokes
the decode kernel with kv_seq_len [6] and unrepeated key/value tensors, and
the visibility boundary sits between source positions 5 and 6. -/
theorem c2_gpu_decode_witness :
    qDec.seqLen = 1
    ∧ jit_attn 1 128 "gpu" qDec kvDec kvDec (Bias.maskFn ⟨causalMaskPred, some [5]⟩)
        = .ok (.flashDecoding qDec kvDec kvDec none causalMaskPred [6] 1)
    ∧ decodeVisible 6 causalMaskPred 5 5 = true
    ∧ decodeVisible 6 causalMaskPred 5 6 = false := by
  refine ⟨rfl, ?_, ?_, ?_⟩
  · rw [(c2_gpu_decode 1 128 qDec kvDec kvDec (Bias.maskFn ⟨causalMaskPred, some [5]⟩) rfl).1]
    rfl
  · rw [(c2_gpu_decode 1 128 qDec kvDec kvDec (Bias.maskFn ⟨causalMaskPred, some [5]⟩) rfl).2 5]
    decide
  · rw [(c2_gpu_decode 1 128 qDec kvDec kvDec (Bias.maskFn ⟨causalMaskPred, some [5]⟩) rfl).2 6]
    decide

/-- C3: every call with target length 1 on a backend other than "gpu" is
forced onto the generic fallback with the entire bias collapsed into a single
dense tensor via value(): the reference attention receives only that dense
bias — no segment ids, no causal flag, no mask predicate. -/
theorem c3_single_token_fallback (scale : ℚ) (bs : ℕ) (backend : String)
    (q k v : Tensor) (bias : Bias) (hq : q.seqLen = 1) (hb : backend ≠ "gpu") :
    jit_attn scale bs backend q k v bias
      = .ok (.mhaRef q (repeat_kv_heads q.heads k) (repeat_kv_heads q.heads v)
          (densifyOpt bias) none false scale) := by
  unfold jit_attn
  rw [hq, resolvedBackend_one bs backend hb, resolvedBias_one backend bias hb,
      dispatchBranch_xla]
  rfl

/-- Witness for C3: a single-token "tpu" call with a composite
causal-plus-mask bias collapses to the dense tensor and reaches the
reference-attention call. -/
theorem c3_single_token_fallback_witness :
    qDec.seqLen = 1 ∧ ("tpu" : String) ≠ "gpu"
    ∧ jit_attn 1 128 "tpu" qDec kvDec kvDec (Bias.composite [Bias.causal])
        = .ok (.mhaRef qDec (repeat_kv_heads qDec.heads kvDec)
            (repeat_kv_heads qDec.heads kvDec)
            (densifyOpt (Bias.composite [Bias.causal])) none false 1) :=
  ⟨rfl, by decide,
   c3_single_token_fallback 1 128 "tpu" qDec kvDec kvDec (Bias.composite [Bias.causal])
     rfl (by decide)⟩

/-- Counterexample to C6: a call with the out-of-enumeration backend "rocm"
and target length 1 does NOT fail with an unsupported-backend error — the
single-token fallback rewrites the backend to the generic fallback first, and
the call returns a reference-attention invocation. -/
theorem c6_counterexample :
    jit_attn 1 128 "rocm" qDec kvDec kvDec Bias.zero
      = .ok (.mhaRef qDec (repeat_kv_heads qDec.heads kvDec)
          (repeat_kv_heads qDec.heads kvDec) none none false 1) := rfl

/-- C6 (amended): a backend outside the enumeration {cpu, gpu, tpu, xla} is
a fatal unsupported-backend error, provided neither downgrade rule fires
first (target length a multiple of the block size and different from 1);
otherwise the call is silently rewritten onto the generic fallback. -/
theorem c6_unsupported_backend (scale : ℚ) (bs : ℕ) (backend : String)
    (q k v : Tensor) (bias : Bias)
    (hb1 : backend ≠ "gpu") (hb2 : backend ≠ "tpu") (hb3 : backend ≠ "cpu")
    (hb4 : backend ≠ "xla") (h1 : q.seqLen ≠ 1) (h2 : q.seqLen % bs = 0) :
    jit_attn scale bs backend q k v bias = .error .unsupportedBackend := by
  unfold jit_attn
  rw [resolvedBackend_generic bs backend q.seqLen h1 h2,
      resolvedBias_nonone backend q.seqLen bias h1]
  exact dispatchBranch_other scale bs backend q k v _ hb1 hb2 hb3 hb4

/-- Witness for the amended C6 at backend "rocm", target length 2, block
size 2. -/
theorem c6_unsupported_backend_witness :
    jit_attn 1 2 "rocm" qT3 kvT2 kvT2 Bias.zero = .error .unsupportedBackend :=
  c6_unsupported_backend 1 2 "rocm" qT3 kvT2 kvT2 Bias.zero (by decide) (by decide)
    (by decide) (by decide) (by decide) (by decide)

theorem filter_isSeg_nil (L : List Bias) (h : L.filterMap segProj = []) :
    L.filter isSegLeaf = [] := by
  induction L with
  | nil => rfl
  | cons x xs ih =>
    cases x <;> simp only [List.filterMap_cons, List.filter_cons, segProj, isSegLeaf] at h ⊢ <;>
      first
      | exact ih h
      | simp at h

theorem densifyOpt_segGroup_none (b : Bias) (h : (segLeaves b).isEmpty = true) :
    densifyOpt (segGroup b) = none := by
  have hnil : (leaves b).filterMap segProj = [] := by
    unfold segLeaves at h
    exact List.isEmpty_iff.mp h
  unfold densifyOpt segGroup
  rw [filter_isSeg_nil _ hnil]
  rfl

theorem getSegmentIds_cons (qB qL kL : ℕ) (st : SegTensor) (rest : List SegTensor) :
    getSegmentIds qB qL kL (st :: rest)
      = if qL ≠ kL then .error .segQKLenMismatch
        else if st.batch ≠ qB then .error .segBatchMismatch
        else .ok (some st) := rfl

theorem xlaBranch_seg (scale : ℚ) (q k v : Tensor) (b : Bias) (st : SegTensor)
    (rest : List SegTensor) (hseg : segLeaves b = st :: rest) :
    xlaBranch scale q k v b
      = if q.seqLen ≠ k.seqLen then .error .segQKLenMismatch
        else if st.batch ≠ q.batch then .error .segBatchMismatch
        else .ok (.mhaRef q (repeat_kv_heads q.heads k) (repeat_kv_heads q.heads v)
          (densifyOpt (causalSegRest b)) (some st) (causalPresent b) scale) := by
  unfold xlaBranch
  rw [hseg, getSegmentIds_cons]
  by_cases hlen : q.seqLen ≠ k.seqLen
  · rw [if_pos hlen, if_pos hlen]
  · rw [if_neg hlen, if_neg hlen]
    by_cases hb : st.batch ≠ q.batch
    · rw [if_pos hb, if_pos hb]
    · rw [if_neg hb, if_neg hb]

theorem tpuBranch_seg (scale : ℚ) (bs : ℕ) (q k v : Tensor) (b : Bias) (st : SegTensor)
    (rest : List SegTensor) (hseg : segLeaves b = st :: rest) :
    tpuBranch scale bs q k v b
      = if q.seqLen ≠ k.seqLen then .error .segQKLenMismatch
        else if st.batch ≠ q.batch then .error .segBatchMismatch
        else .ok (.tpuFlash q (repeat_kv_heads q.heads k) (repeat_kv_heads q.heads v)
          (densifyOpt (maskSegRest b)) (some st) (retrievedMask (maskLeaves b)) scale bs) := by
  unfold tpuBranch
  rw [hseg, getSegmentIds_cons]
  by_cases hlen : q.seqLen ≠ k.seqLen
  · rw [if_pos hlen, if_pos hlen]
  · rw [if_neg hlen, if_neg hlen]
    by_cases hb : st.batch ≠ q.batch
    · rw [if_pos hb, if_pos hb]
    · rw [if_neg hb, if_neg hb]

theorem gpuSlowCond_of_seg (q k v : Tensor) (b : Bias) (st : SegTensor)
    (rest : List SegTensor) (hseg : segLeaves b = st :: rest) :
    gpuSlowCond q k v b = true := by
  unfold gpuSlowCond
  rw [hseg]
  simp

theorem gpuBranch_seg (scale : ℚ) (q k v : Tensor) (b : Bias) (st : SegTensor)
    (rest : List SegTensor) (h1 : q.seqLen ≠ 1) (hseg : segLeaves b = st :: rest) :
    gpuBranch scale q k v b
      = if q.seqLen ≠ k.seqLen then .error .qkLenMismatch
        else if st.batch ≠ q.batch then .error .segBatchMismatch
        else .ok (.gpuTriton q (repeat_kv_heads q.heads k) (repeat_kv_heads q.heads v)
          (densifyOpt (causalSegRest b)) (some st) scale (causalPresent b)) := by
  have hcond := gpuSlowCond_of_seg q k v b st rest hseg
  unfold gpuBranch
  rw [if_neg h1]
  by_cases hlen : q.seqLen ≠ k.seqLen
  · rw [if_pos hlen, if_pos hlen]
  · rw [if_neg hlen, if_neg hlen]
    simp only [hcond, if_true, hseg, getSegmentIds_cons]
    rw [if_neg hlen]
    by_cases hb : st.batch ≠ q.batch
    · rw [if_pos hb, if_pos hb]
    · rw [if_neg hb, if_neg hb]

/-- C4 (amended): on the GPU general path (not decode, equal lengths) the
slower Triton kernel branch is selected exactly when segment ids are present,
the remaining explicit bias is non-empty, or an input is float32; when the
condition fails the fastest (cudnn) kernel is invoked with no dense bias and
no segment ids, only the causal flag.  Inside the Triton branch, however, a
segment-id batch mismatch raises a ValueError instead of invoking the kernel,
so the kernel invocation additionally requires retrievable segment ids. -/
theorem c4_gpu_kernel_selection (scale : ℚ) (bs : ℕ) (q k v : Tensor) (bias : Bias)
    (h1 : q.seqLen ≠ 1) (h2 : q.seqLen % bs = 0) (hqk : q.seqLen = k.seqLen) :
    (gpuSlowCond q k v (.composite [bias]) = false →
      jit_attn scale bs "gpu" q k v bias
        = .ok (.cudnn q (repeat_kv_heads q.heads k) (repeat_kv_heads q.heads v) none scale
            (causalPresent (.composite [bias]))))
    ∧ (∀ sids, gpuSlowCond q k v (.composite [bias]) = true →
        getSegmentIds q.batch q.seqLen k.seqLen (segLeaves (.composite [bias])) = .ok sids →
        jit_attn scale bs "gpu" q k v bias
          = .ok (.gpuTriton q (repeat_kv_heads q.heads k) (repeat_kv_heads q.heads v)
              (densifyOpt (causalSegRest (.composite [bias]))) sids scale
              (causalPresent (.composite [bias]))))
    ∧ (isTriton (jit_attn scale bs "gpu" q k v bias) = true →
        gpuSlowCond q k v (.composite [bias]) = true) := by
  have hj : jit_attn scale bs "gpu" q k v bias
      = gpuBranch scale q k v (.composite [bias]) := by
    unfold jit_attn
    rw [resolvedBackend_gpu bs q.seqLen h2, resolvedBias_gpu, dispatchBranch_gpu]
  have hi : gpuSlowCond q k v (.composite [bias]) = false →
      jit_attn scale bs "gpu" q k v bias
        = .ok (.cudnn q (repeat_kv_heads q.heads k) (repeat_kv_heads q.heads v) none scale
            (causalPresent (.composite [bias]))) := by
    intro hcond
    have hE : (segLeaves (Bias.composite [bias])).isEmpty = true := by
      cases hE0 : (segLeaves (Bias.composite [bias])).isEmpty with
      | true => rfl
      | false =>
        unfold gpuSlowCond at hcond
        rw [hE0] at hcond
        simp at hcond
    have hD : densifyOpt (causalSegRest (Bias.composite [bias])) = none := by
      cases hD0 : densifyOpt (causalSegRest (Bias.composite [bias])) with
      | none => rfl
      | some x =>
        unfold gpuSlowCond at hcond
        rw [hD0] at hcond
        simp at hcond
    have hSG : densifyOpt (segGroup (Bias.composite [bias])) = none :=
      densifyOpt_segGroup_none _ hE
    have hnc : ¬ (gpuSlowCond q k v (Bias.composite [bias]) = true) := by
      rw [hcond]
      exact Bool.false_ne_true
    rw [hj]
    unfold gpuBranch
    rw [if_neg h1, if_neg (fun hne => hne hqk), if_neg hnc, hD, hSG]
    rfl
  refine ⟨hi, ?_, ?_⟩
  · intro sids hcond hok
    rw [hj]
    unfold gpuBranch
    rw [if_neg h1, if_neg (fun hne => hne hqk), if_pos hcond, hok]
  · intro ht
    by_cases hcond : gpuSlowCond q k v (Bias.composite [bias]) = true
    · exact hcond
    · exfalso
      have hcf : gpuSlowCond q k v (Bias.composite [bias]) = false := by
        cases hg : gpuSlowCond q k v (Bias.composite [bias]) with
        | false => rfl
        | true => exact absurd hg hcond
      rw [hi hcf] at ht
      simp [isTriton] at ht

/-- A segment-id tensor whose batch dimension (1) matches the query batch. -/
def stMatch : SegTensor := SegTensor.mk 1 2 (fun _ _ => 0)

/-- A segment-id tensor whose batch dimension (2) mismatches the query
batch (1). -/
def stBad : SegTensor := SegTensor.mk 2 2 (fun _ _ => 0)

/-- Counterexample to C4: on a GPU call with equal lengths and a present
SegmentId component (so the claim requires the slower kernel to be invoked),
a segment batch mismatch instead raises a ValueError — no kernel is
invoked. -/
theorem c4_counterexample :
    gpuSlowCond qT3 kvT2 kvT2 (Bias.composite [Bias.segmentIds stBad]) = true
    ∧ jit_attn 1 2 "gpu" qT3 kvT2 kvT2 (Bias.segmentIds stBad)
        = .error .segBatchMismatch
    ∧ isTriton (jit_attn 1 2 "gpu" qT3 kvT2 kvT2 (Bias.segmentIds stBad)) = false :=
  ⟨rfl, rfl, rfl⟩

/-- Witness for the amended C4: a plain causal GPU call takes the cudnn
kernel with no dense bias, a matching segment-id call takes the Triton
kernel, and a Triton outcome implies the slow-path condition. -/
theorem c4_gpu_kernel_selection_witness :
    (qT3.seqLen ≠ 1 ∧ qT3.seqLen % 2 = 0 ∧ qT3.seqLen = kvT2.seqLen)
    ∧ jit_attn 1 2 "gpu" qT3 kvT2 kvT2 Bias.causal
        = .ok (.cudnn qT3 (repeat_kv_heads qT3.heads kvT2) (repeat_kv_heads qT3.heads kvT2)
            none 1 (causalPresent (.composite [Bias.causal])))
    ∧ jit_attn 1 2 "gpu" qT3 kvT2 kvT2 (Bias.segmentIds stMatch)
        = .ok (.gpuTriton qT3 (repeat_kv_heads qT3.heads kvT2) (repeat_kv_heads qT3.heads kvT2)
            (densifyOpt (causalSegRest (.composite [Bias.segmentIds stMatch]))) (some stMatch) 1
            (causalPresent (.composite [Bias.segmentIds stMatch])))
    ∧ gpuSlowCond qT3 kvT2 kvT2 (.composite [Bias.segmentIds stMatch]) = true :=
  ⟨⟨by decide, by decide, by decide⟩,
   (c4_gpu_kernel_selection 1 2 qT3 kvT2 kvT2 Bias.causal (by decide) (by decide)
     (by decide)).1 (by decide),
   (c4_gpu_kernel_selection 1 2 qT3 kvT2 kvT2 (Bias.segmentIds stMatch) (by decide) (by decide)
     (by decide)).2.1 (some stMatch) (by decide) rfl,
   (c4_gpu_kernel_selection 1 2 qT3 kvT2 kvT2 (Bias.segmentIds stMatch) (by decide) (by decide)
     (by decide)).2.2 rfl⟩

/-- C10 (amended): when the bias carries a SegmentId component, the
CPU/generic-fallback and TPU paths raise a ValueError before invoking any
kernel whenever the query/key lengths differ or the segment batch dimension
differs from the query batch, and otherwise pass the segment tensor through
unchanged; on the GPU general path, however, a query/key length mismatch is
reported as the earlier NotImplementedError (not a ValueError), while a batch
mismatch raises the ValueError as on the other paths. -/
theorem c10_segment_id_checks (scale : ℚ) (bs : ℕ) (q k v : Tensor) (bias : Bias)
    (st : SegTensor) (rest : List SegTensor)
    (h1 : q.seqLen ≠ 1) (h2 : q.seqLen % bs = 0)
    (hseg : segLeaves (Bias.composite [bias]) = st :: rest) :
    (jit_attn scale bs "cpu" q k v bias
      = if q.seqLen ≠ k.seqLen then .error .segQKLenMismatch
        else if st.batch ≠ q.batch then .error .segBatchMismatch
        else .ok (.mhaRef q (repeat_kv_heads q.heads k) (repeat_kv_heads q.heads v)
          (densifyOpt (causalSegRest (Bias.composite [bias]))) (some st)
          (causalPresent (Bias.composite [bias])) scale))
    ∧ (jit_attn scale bs "xla" q k v bias
      = if q.seqLen ≠ k.seqLen then .error .segQKLenMismatch
        else if st.batch ≠ q.batch then .error .segBatchMismatch
        else .ok (.mhaRef q (repeat_kv_heads q.heads k) (repeat_kv_heads q.heads v)
          (densifyOpt (causalSegRest (Bias.composite [bias]))) (some st)
          (causalPresent (Bias.composite [bias])) scale))
    ∧ (jit_attn scale bs "tpu" q k v bias
      = if q.seqLen ≠ k.seqLen then .error .segQKLenMismatch
        else if st.batch ≠ q.batch then .error .segBatchMismatch
        else .ok (.tpuFlash q (repeat_kv_heads q.heads k) (repeat_kv_heads q.heads v)
          (densifyOpt (maskSegRest (Bias.composite [bias]))) (some st)
          (retrievedMask (maskLeaves (Bias.composite [bias]))) scale bs))
    ∧ (jit_attn scale bs "gpu" q k v bias
      = if q.seqLen ≠ k.seqLen then .error .qkLenMismatch
        else if st.batch ≠ q.batch then .error .segBatchMismatch
        else .ok (.gpuTriton q (repeat_kv_heads q.heads k) (repeat_kv_heads q.heads v)
          (densifyOpt (causalSegRest (Bias.composite [bias]))) (some st) scale
          (causalPresent (Bias.composite [bias])))) := by
  refine ⟨?_, ?_, ?_, ?_⟩
  · unfold jit_attn
    rw [resolvedBackend_generic bs "cpu" q.seqLen h1 h2,
        resolvedBias_nonone "cpu" q.seqLen bias h1, dispatchBranch_cpu,
        xlaBranch_seg scale q k v _ st rest hseg]
  · unfold jit_attn
    rw [resolvedBackend_generic bs "xla" q.seqLen h1 h2,
        resolvedBias_nonone "xla" q.seqLen bias h1, dispatchBranch_xla,
        xlaBranch_seg scale q k v _ st rest hseg]
  · unfold jit_attn
    rw [resolvedBackend_generic bs "tpu" q.seqLen h1 h2,
        resolvedBias_nonone "tpu" q.seqLen bias h1, dispatchBranch_tpu,
        tpuBranch_seg scale bs q k v _ st rest hseg]
  · unfold jit_attn
    rw [resolvedBackend_gpu bs q.seqLen h2, resolvedBias_gpu, dispatchBranch_gpu,
        gpuBranch_seg scale q k v _ st rest h1 hseg]

/-- A concrete key/value tensor with source length 4 (differs from qT3's
target length 2). -/
def kvT4 : Tensor := Tensor.mk 1 4 2 1 DType.bfloat16 (fun _ _ _ _ => 1)

/-- Counterexample to C10: on the GPU path with a SegmentId bias present and
mismatched query/key lengths, the error raised is the NotImplementedError of
the GPU length check, not a ValueError as the claim states. -/
theorem c10_counterexample :
    jit_attn 1 2 "gpu" qT3 kvT4 kvT4 (Bias.segmentIds stMatch)
      = .error .qkLenMismatch
    ∧ isValueError .qkLenMismatch = false :=
  ⟨rfl, rfl⟩

/-- Witness for the amended C10 at a concrete call with a SegmentId bias on
each backend path. -/
theorem c10_segment_id_checks_witness :
    (qT3.seqLen ≠ 1 ∧ qT3.seqLen % 2 = 0
      ∧ segLeaves (Bias.composite [Bias.segmentIds stMatch]) = [stMatch])
    ∧ jit_attn 1 2 "cpu" qT3 kvT2 kvT2 (Bias.segmentIds stMatch)
      = if qT3.seqLen ≠ kvT2.seqLen then .error .segQKLenMismatch
        else if stMatch.batch ≠ qT3.batch then .error .segBatchMismatch
        else .ok (.mhaRef qT3 (repeat_kv_heads qT3.heads kvT2) (repeat_kv_heads qT3.heads kvT2)
          (densifyOpt (causalSegRest (Bias.composite [Bias.segmentIds stMatch]))) (some stMatch)
          (causalPresent (Bias.composite [Bias.segmentIds stMatch])) 1) :=
  ⟨⟨by decide, by decide, rfl⟩,
   (c10_segment_id_checks 1 2 qT3 kvT2 kvT2 (Bias.segmentIds stMatch) stMatch []
     (by decide) (by decide) rfl).1⟩
